import Mathlib

/-!
Shallow embedding of the pod lifecycle manager of `libpod/runtime_pod.go`
(package libpod): the public Runtime pod API `NewPod`, `RemovePod`,
`GetPod`, `HasPod`, `LookupPod`, `Pods`.

The file embeds `runtime_pod.go` faithfully.  Collaborators whose code is
not part of the two source files (the State Store, the OS/process backend,
the cgroup backend, the base error values of `errors.go`, and the blank
pod allocated by `newPod`) are modelled from the specification; every such
definition carries a doc comment starting `Modelled from the spec:`.

Go pointers are modelled by value passing: each operation returns, besides
its result, the updated world (runtime + store) and the updated in-memory
pod / container objects it touched.  Locking is not modelled (the
embedding is sequential); `syncContainer` is modelled as the identity
because the world's container records are taken to be the live truth.
-/

namespace Libpod

/-- Container states, as used by `RemovePod`'s gating checks
(`ContainerStateConfigured`, `...Running`, `...Paused`, stopped/exited,
`...Unknown`). -/
inductive ContainerStatus where
  | configured
  | running
  | paused
  | stopped
  | unknown
  deriving DecidableEq, Repr

/-- The mutable state record of a container: its status and the set of
active exec-session identifiers (`ctr.state.State`,
`ctr.state.ExecSessions`). -/
structure ContainerStateRec where
  status : ContainerStatus
  execSessions : List String
  deriving DecidableEq, Repr

/-- An in-memory container object: identity, state record, validity flag. -/
structure Container where
  id : String
  state : ContainerStateRec
  valid : Bool
  deriving DecidableEq, Repr

/-- Pod configuration (`pod.config`): identity, name, cgroup parent and
the `UsePodCgroup` flag; immutable after creation. -/
structure PodConfig where
  id : String
  name : String
  cgroupParent : String
  usePodCgroup : Bool
  deriving DecidableEq, Repr

/-- Pod mutable state (`pod.state`): the precomputed cgroup path. -/
structure PodState where
  cgroupPath : String
  deriving DecidableEq, Repr

/-- An in-memory pod object: configuration, state, validity flag. -/
structure Pod where
  config : PodConfig
  state : PodState
  valid : Bool
  deriving DecidableEq, Repr

/-- `pod.ID()`. -/
def Pod.ID (p : Pod) : String := p.config.id

/-- Errors surfaced by the pod API.  One constructor per distinct error
site of `runtime_pod.go`; `kindOf` below maps each back to the base error
value (`errors.go`) it wraps. -/
inductive PodErr where
  /-- `ErrRuntimeStopped`. -/
  | runtimeStopped
  /-- `ErrPodRemoved`. -/
  | podRemoved
  /-- wraps `ErrCtrExists`: "pod %s contains containers and cannot be removed". -/
  | podNotEmpty (podID : String)
  /-- wraps `ErrCtrStateInvalid`: paused / unknown-state / running without
  force / active exec sessions without force. -/
  | ctrStateInvalid (podID ctrID : String)
  /-- wraps `ErrCtrExists`: "container %s depends on container %s not in pod %s". -/
  | depViolation (ctrID depID podID : String)
  /-- wraps `ErrInvalidArg`: bad cgroup parent / unsupported cgroup manager. -/
  | invalidArg (msg : String)
  /-- `ErrNotImplemented`. -/
  | notImplemented
  /-- a wrapped failure of a pod-create option. -/
  | createOption (msg : String)
  /-- a wrapped failure of the State Store, OS backend or cgroup backend. -/
  | backend (msg : String)
  deriving DecidableEq, Repr

/-- The base libpod error kinds (spec §7 taxonomy / `errors.go`). -/
inductive ErrKind where
  | runtimeStopped
  | podRemoved
  | ctrExists
  | ctrStateInvalid
  | invalidArg
  | notImplemented
  | other
  deriving DecidableEq, Repr

/-- The base error value each `PodErr` wraps. -/
def PodErr.kindOf : PodErr → ErrKind
  | .runtimeStopped => .runtimeStopped
  | .podRemoved => .podRemoved
  | .podNotEmpty _ => .ctrExists
  | .ctrStateInvalid _ _ => .ctrStateInvalid
  | .depViolation _ _ _ => .ctrExists
  | .invalidArg _ => .invalidArg
  | .notImplemented => .notImplemented
  | .createOption _ => .other
  | .backend _ => .other

/-- Is this error the dependency-closure violation of `RemovePod`
(spec kind *DependencyViolation*)? -/
def isDepViolation : Option PodErr → Bool
  | some (.depViolation _ _ _) => true
  | _ => false

/-- Is this error one of the container-gating failures of `RemovePod`
(spec kind *ContainerStateInvalid*)? -/
def isCtrStateInvalid : Option PodErr → Bool
  | some (.ctrStateInvalid _ _) => true
  | _ => false

/-! ### Path helpers (Go `path.Base`, `strings.HasSuffix`, `filepath.Join`) -/

/-- Drop trailing `/` characters, as `path.Base` does first. -/
def stripTrailingSlashes (l : List Char) : List Char :=
  (l.reverse.dropWhile (· = '/')).reverse

/-- The last path component of a slash-free-tail list. -/
def lastComponent (l : List Char) : List Char :=
  (l.reverse.takeWhile (· ≠ '/')).reverse

/-- Go `path.Base`: empty string gives ".", all-slashes gives "/",
otherwise the last element of the path with trailing slashes removed. -/
def pathBase (s : String) : String :=
  if s = "" then "."
  else
    let t := stripTrailingSlashes s.toList
    if t = [] then "/" else ⟨lastComponent t⟩

/-- Go `strings.HasSuffix s suffix`. -/
def hasSuffix (s suffix : String) : Bool :=
  suffix.toList.isSuffixOf s.toList

/-- Go `filepath.Join a b` for the cleaned, non-empty paths this code
joins (`pod.config.CgroupParent` is non-empty when joined). -/
def filepathJoin (a b : String) : String := a ++ "/" ++ b

/-! ### Runtime configuration and constants -/

/-- `CgroupfsCgroupsManager` (constant defined outside `src/`).
Modelled from the spec: the `cgroupfs` manager-mode value. -/
def CgroupfsCgroupsManager : String := "cgroupfs"

/-- `SystemdCgroupsManager` (constant defined outside `src/`).
Modelled from the spec: the `systemd` manager-mode value. -/
def SystemdCgroupsManager : String := "systemd"

/-- `CgroupfsDefaultCgroupParent` (constant defined outside `src/`).
Modelled from the spec: the cgroupfs mode's default cgroup parent, a
`/libpod_parent`-style path. -/
def CgroupfsDefaultCgroupParent : String := "/libpod_parent"

/-- `SystemdDefaultCgroupParent` (constant defined outside `src/`).
Modelled from the spec: the systemd mode's default cgroup parent slice. -/
def SystemdDefaultCgroupParent : String := "machine.slice"

/-- The runtime configuration fields this API reads
(`r.config.CgroupManager`). -/
structure RuntimeConfig where
  cgroupManager : String
  deriving DecidableEq, Repr

/-! ### The State Store (collaborator, modelled from the spec) -/

/-- Modelled from the spec: the State Store, the authoritative mapping
from pod ID to Pod and container ID to Container, with pod membership and
the container dependency relation as derived queries.  `membership` holds
`(podID, ctrID)` pairs; `deps` holds `(ctrID, dependentID)` pairs meaning
`dependentID` depends on `ctrID`. -/
structure StateStore where
  pods : List Pod
  ctrs : List Container
  membership : List (String × String)
  deps : List (String × String)
  deriving DecidableEq, Repr

namespace StateStore

/-- Modelled from the spec: `Pod(id)` — look a pod up by exact ID, with a
distinguishable "not found" signal. -/
def pod (s : StateStore) (id : String) : Option Pod :=
  s.pods.find? (fun p => p.config.id = id)

/-- Modelled from the spec: `HasPod(id)`. -/
def hasPod (s : StateStore) (id : String) : Bool :=
  s.pods.any (fun p => p.config.id = id)

/-- Modelled from the spec: `LookupPod(idOrName)` — resolve by exact ID,
then exact name, then unambiguous ID prefix; an ambiguous prefix fails. -/
def lookupPod (s : StateStore) (idOrName : String) : Except PodErr Pod :=
  match s.pods.find? (fun p => p.config.id = idOrName) with
  | some p => .ok p
  | none =>
    match s.pods.find? (fun p => p.config.name = idOrName) with
    | some p => .ok p
    | none =>
      match s.pods.filter (fun p => idOrName.isPrefixOf p.config.id) with
      | [p] => .ok p
      | [] => .error (.backend ("no pod " ++ idOrName))
      | _ => .error (.backend ("ambiguous pod " ++ idOrName))

/-- Modelled from the spec: `AllPods()`. -/
def allPods (s : StateStore) : List Pod := s.pods

/-- Modelled from the spec: `AddPod` — persist a new pod, failing with a
distinguishable error when a pod with the same ID or name already exists. -/
def addPod (s : StateStore) (p : Pod) : Except String StateStore :=
  if s.pods.any (fun q => q.config.id = p.config.id ∨ q.config.name = p.config.name) then
    .error ("pod " ++ p.config.id ++ " already exists")
  else
    .ok { s with pods := s.pods ++ [p] }

/-- Modelled from the spec: `RemovePod` — delete the pod's record, failing
with a distinguishable error when it is absent. -/
def removePod (s : StateStore) (p : Pod) : Except String StateStore :=
  if s.hasPod p.config.id then
    .ok { s with pods := s.pods.filter (fun q => ¬ q.config.id = p.config.id) }
  else
    .error ("no pod " ++ p.config.id)

/-- Modelled from the spec: `PodContainers(pod)` — the pod's member
containers, resolved through the membership relation. -/
def podContainers (s : StateStore) (p : Pod) : List Container :=
  s.ctrs.filter (fun c => s.membership.any (fun m => m.1 = p.config.id ∧ m.2 = c.id))

/-- Modelled from the spec: `ContainerInUse(ctr)` — the IDs of the
containers that depend on `ctr`. -/
def containerInUse (s : StateStore) (c : Container) : List String :=
  (s.deps.filter (fun d => d.1 = c.id)).map (fun d => d.2)

/-- Modelled from the spec: `RemovePodContainers(pod)` — remove every
member container of the pod from the store as a bulk operation. -/
def removePodContainers (s : StateStore) (p : Pod) : StateStore :=
  { s with
    ctrs := s.ctrs.filter (fun c => ¬ s.membership.any (fun m => m.1 = p.config.id ∧ m.2 = c.id))
    membership := s.membership.filter (fun m => ¬ m.1 = p.config.id) }

end StateStore

/-! ### The OS/process and cgroup backends (collaborators, modelled from the spec) -/

/-- Outcome of `cgroups.Load`: a loadable cgroup, the recognized
`ErrCgroupDeleted` outcome, or any other load error. -/
inductive CgLoadResult where
  | ok
  | deleted
  | fail (msg : String)
  deriving DecidableEq, Repr

/-- Modelled from the spec: the OS/process backend
(`stopContainer`, `execStopContainer`, per-container `cleanup`,
`teardownStorage`, `delete`) and the cgroup backend (`Load` / `Delete`).
Each operation either succeeds or fails; the tables below inject the
outcome per container ID / cgroup path. -/
structure Backend where
  stopOk : String → Bool
  execStopOk : String → Bool
  cleanupOk : String → Bool
  teardownOk : String → Bool
  deleteOk : String → Bool
  cgLoad : String → CgLoadResult
  cgDeleteOk : String → Bool

/-- The world an operation runs in: the Runtime's validity flag and
configuration, the State Store, and the backends. -/
structure World where
  valid : Bool
  config : RuntimeConfig
  store : StateStore
  backend : Backend

/-! ### NewPod -/

/-- A `PodCreateOption`: a functional option which alters the Pod created
by `NewPod`, or fails. -/
def PodCreateOption := Pod → Except String Pod

/-- Modelled from the spec: `newPod(lockDir, runtime)` (defined outside
`src/`) — allocate a new, blank pod object bound to the runtime, with a
fresh opaque ID and no name, parent, or cgroup opt-in set. -/
def blankPod (freshID : String) : Pod :=
  { config := { id := freshID, name := "", cgroupParent := "", usePodCgroup := false }
    state := { cgroupPath := "" }
    valid := false }

/-- Apply each configuration mutator in order; the first failure aborts
(lines 39-43). -/
def applyOptions : Pod → List PodCreateOption → Except String Pod
  | p, [] => .ok p
  | p, o :: os =>
    match o p with
    | .error e => .error e
    | .ok p' => applyOptions p' os

/-- The `(pod, err)` pair `NewPod` returns, with the resulting world. -/
structure NewPodResult where
  pod : Option Pod
  err : Option PodErr
  world : World

/-- The tail of `NewPod` (lines 82-87): persist the pod via the State
Store, then return `(nil, ErrNotImplemented)` — exactly as the code does. -/
def finishNewPod (w : World) (pod : Pod) : NewPodResult :=
  match w.store.addPod pod with
  | .error e => ⟨none, some (.backend ("error adding pod to state: " ++ e)), w⟩
  | .ok store => ⟨none, some .notImplemented, { w with store := store }⟩

/-- `Runtime.NewPod` (lines 26-87).  `freshID` is the opaque ID allocated
by `newPod` and `freshName` the name `r.generateName()` would produce. -/
def newPod (w : World) (freshID freshName : String) (options : List PodCreateOption) :
    NewPodResult :=
  if w.valid = false then ⟨none, some .runtimeStopped, w⟩
  else
    match applyOptions (blankPod freshID) options with
    | .error e => ⟨none, some (.createOption e), w⟩
    | .ok pod0 =>
      let pod1 :=
        if pod0.config.name = "" then
          { pod0 with config := { pod0.config with name := freshName } }
        else pod0
      let pod2 := { pod1 with valid := true }
      if w.config.cgroupManager = CgroupfsCgroupsManager then
        if pod2.config.cgroupParent = "" then
          finishNewPod w
            { pod2 with config := { pod2.config with cgroupParent := CgroupfsDefaultCgroupParent } }
        else if hasSuffix (pathBase pod2.config.cgroupParent) ".slice" then
          ⟨none, some (.invalidArg "systemd slice received as cgroup parent when using cgroupfs"), w⟩
        else
          finishNewPod w pod2
      else if w.config.cgroupManager = SystemdCgroupsManager then
        let step : Except PodErr Pod :=
          if pod2.config.cgroupParent = "" then
            .ok { pod2 with config := { pod2.config with cgroupParent := SystemdDefaultCgroupParent } }
          else if pod2.config.cgroupParent.length < 6 ∨
              ¬ hasSuffix (pathBase pod2.config.cgroupParent) ".slice" then
            .error (.invalidArg "did not receive systemd slice as cgroup parent when using systemd to manage cgroups")
          else
            .ok pod2
        match step with
        | .error e => ⟨none, some e, w⟩
        | .ok pod3 =>
          let pod4 :=
            if pod3.config.usePodCgroup then
              { pod3 with state := { cgroupPath := filepathJoin pod3.config.cgroupParent pod3.ID } }
            else pod3
          finishNewPod w pod4
      else
        ⟨none, some (.invalidArg ("unsupported CGroup manager: " ++ w.config.cgroupManager)), w⟩

/-! ### RemovePod -/

/-- The per-container validation loop of `RemovePod` (lines 123-156):
sync (identity here), the four gating checks, and the `ContainerInUse`
query collected into the `dependencies` map. -/
def validateCtrs (s : StateStore) (podID : String) (force : Bool) :
    List Container → Except PodErr (List (String × List String))
  | [] => .ok []
  | c :: rest =>
    if c.state.status = .paused then .error (.ctrStateInvalid podID c.id)
    else if c.state.status = .unknown then .error (.ctrStateInvalid podID c.id)
    else if c.state.status = .running ∧ force = false then .error (.ctrStateInvalid podID c.id)
    else if c.state.execSessions ≠ [] ∧ force = false then .error (.ctrStateInvalid podID c.id)
    else
      match validateCtrs s podID force rest with
      | .error e => .error e
      | .ok deps => .ok ((c.id, s.containerInUse c) :: deps)

/-- The iteration of the dependency-closure check: `keys` is the member
ID set (the keys of the `dependencies` map). -/
def depCheckAux (podID : String) (keys : List String) :
    List (String × List String) → Option PodErr
  | [] => none
  | kv :: rest =>
    match kv.2.find? (fun d => ¬ keys.contains d) with
    | some d => some (.depViolation kv.1 d podID)
    | none => depCheckAux podID keys rest

/-- The dependency-closure check of `RemovePod` (lines 158-166): a member
container depended on by a container that is not itself a member fails. -/
def depCheck (podID : String) (depMap : List (String × List String)) : Option PodErr :=
  depCheckAux podID (depMap.map (fun kv => kv.1)) depMap

/-- The forced-stop loop of `RemovePod` (lines 171-191): stop each
running container (picking up the stopped state by re-sync) and stop
active exec sessions; the first backend failure aborts, keeping the
mutations already made. -/
def forceStopCtrs (b : Backend) : List Container → Option PodErr × List Container
  | [] => (none, [])
  | c :: rest =>
    let stopStep : Except PodErr Container :=
      if c.state.status = .running then
        if b.stopOk c.id then .ok { c with state := { c.state with status := .stopped } }
        else .error (.backend ("error stopping container " ++ c.id))
      else .ok c
    match stopStep with
    | .error e => (some e, c :: rest)
    | .ok c' =>
      if c'.state.execSessions ≠ [] then
        if b.execStopOk c'.id then
          let c'' := { c' with state := { c'.state with execSessions := [] } }
          let r := forceStopCtrs b rest
          (r.1, c'' :: r.2)
        else (some (.backend ("error stopping exec sessions of " ++ c'.id)), c' :: rest)
      else
        let r := forceStopCtrs b rest
        (r.1, c' :: r.2)

/-- The teardown loop of `RemovePod` (lines 196-214): cleanup, storage
teardown, and backend delete (skipped for `Configured` containers); the
first failure aborts. -/
def teardownCtrs (b : Backend) : List Container → Option PodErr
  | [] => none
  | c :: rest =>
    if ¬ b.cleanupOk c.id then some (.backend ("cleanup of container " ++ c.id))
    else if ¬ b.teardownOk c.id then some (.backend ("storage teardown of container " ++ c.id))
    else if ¬ c.state.status = .configured ∧ ¬ b.deleteOk c.id then
      some (.backend ("delete of container " ++ c.id))
    else teardownCtrs b rest

/-- The pod-cgroup removal phase of `RemovePod` (lines 226-247): skipped
when no cgroup path is set; a no-op under systemd; under cgroupfs, load
and delete the cgroup, treating `ErrCgroupDeleted` on load as success;
any other configured manager is an invalid argument. -/
def removePodCgroup (w : World) (p : Pod) : Option PodErr :=
  if p.state.cgroupPath = "" then none
  else if w.config.cgroupManager = SystemdCgroupsManager then none
  else if w.config.cgroupManager = CgroupfsCgroupsManager then
    match w.backend.cgLoad p.state.cgroupPath with
    | .fail m => some (.backend m)
    | .deleted => none
    | .ok =>
      if w.backend.cgDeleteOk p.state.cgroupPath then none
      else some (.backend ("error deleting cgroup " ++ p.state.cgroupPath))
  else some (.invalidArg ("unknown cgroups manager " ++ w.config.cgroupManager ++ " specified"))

/-- What `RemovePod` leaves behind: the returned error (`none` means
success), the world, and the in-memory pod and member-container objects
after the call. -/
structure RemoveOutcome where
  err : Option PodErr
  world : World
  pod : Pod
  ctrs : List Container

/-- The mutating tail of `RemovePod` (lines 216-257), reached once
validation, forced stop, and teardown have all succeeded: remove the
member containers from the store, mark them invalid, remove the pod
cgroup, remove the pod from the store, and mark the pod invalid. -/
def removePodTail (w : World) (p : Pod) (ctrs2 : List Container) : RemoveOutcome :=
  let w1 : World := { w with store := w.store.removePodContainers p }
  let ctrs'' := ctrs2.map (fun c => { c with valid := false })
  match removePodCgroup w1 p with
  | some e => ⟨some e, w1, p, ctrs''⟩
  | none =>
    match w1.store.removePod p with
    | .error e => ⟨some (.backend e), w1, p, ctrs''⟩
    | .ok store' => ⟨none, { w1 with store := store' }, { p with valid := false }, ctrs''⟩

/-- `Runtime.RemovePod` (lines 95-258). -/
def removePod (w : World) (p : Pod) (removeCtrs force : Bool) : RemoveOutcome :=
  if w.valid = false then ⟨some .runtimeStopped, w, p, []⟩
  else if p.valid = false then ⟨some .podRemoved, w, p, []⟩
  else
    let ctrs := w.store.podContainers p
    if removeCtrs = false ∧ ctrs.length > 0 then ⟨some (.podNotEmpty p.ID), w, p, ctrs⟩
    else
      match validateCtrs w.store p.ID force ctrs with
      | .error e => ⟨some e, w, p, ctrs⟩
      | .ok depMap =>
        match depCheck p.ID depMap with
        | some e => ⟨some e, w, p, ctrs⟩
        | none =>
          let stopRes := if force then forceStopCtrs w.backend ctrs else (none, ctrs)
          match stopRes with
          | (some e, ctrs') => ⟨some e, w, p, ctrs'⟩
          | (none, ctrs') =>
            match teardownCtrs w.backend ctrs' with
            | some e => ⟨some e, w, p, ctrs'⟩
            | none => removePodTail w p ctrs'

/-! ### Read operations -/

/-- `Runtime.GetPod` (lines 261-270). -/
def getPod (w : World) (id : String) : Except PodErr Pod :=
  if w.valid = false then .error .runtimeStopped
  else
    match w.store.pod id with
    | some p => .ok p
    | none => .error (.backend ("no pod with id " ++ id))

/-- `Runtime.HasPod` (lines 273-282). -/
def hasPod (w : World) (id : String) : Except PodErr Bool :=
  if w.valid = false then .error .runtimeStopped
  else .ok (w.store.hasPod id)

/-- `Runtime.LookupPod` (lines 286-295). -/
def lookupPod (w : World) (idOrName : String) : Except PodErr Pod :=
  if w.valid = false then .error .runtimeStopped
  else w.store.lookupPod idOrName

/-- A `PodFilter`: a pure predicate deciding whether a pod is included in
the output of `Pods`. -/
def PodFilter := Pod → Bool

/-- `Runtime.Pods` (lines 301-327): list all pods, then keep those for
which every filter returns true, folding `include && filter(pod)` exactly
as the code does. -/
def pods (w : World) (filters : List PodFilter) : Except PodErr (List Pod) :=
  if w.valid = false then .error .runtimeStopped
  else
    .ok ((w.store.allPods).foldl
      (fun acc p =>
        let inc := filters.foldl (fun i f => i && f p) true
        if inc then acc ++ [p] else acc) [])

/-! ### Predicates used by the theorems -/

/-- A container passes all four gating checks of `RemovePod`'s validation
loop under the given `force` value. -/
def removableCtr (force : Bool) (c : Container) : Prop :=
  c.state.status ≠ .paused ∧ c.state.status ≠ .unknown ∧
  (c.state.status = .running → force = true) ∧
  (c.state.execSessions ≠ [] → force = true)

instance (force : Bool) (c : Container) : Decidable (removableCtr force c) := by
  unfold removableCtr
  infer_instance

/-- The cgroup backend lets the pod-cgroup removal phase succeed: either
there is no pod cgroup path, or the manager mode handles it without
error. -/
def cgroupRemovalOk (w : World) (p : Pod) : Prop :=
  p.state.cgroupPath = "" ∨
  w.config.cgroupManager = SystemdCgroupsManager ∨
  (w.config.cgroupManager = CgroupfsCgroupsManager ∧
    (w.backend.cgLoad p.state.cgroupPath = .deleted ∨
      (w.backend.cgLoad p.state.cgroupPath = .ok ∧
        w.backend.cgDeleteOk p.state.cgroupPath = true)))

instance (w : World) (p : Pod) : Decidable (cgroupRemovalOk w p) := by
  unfold cgroupRemovalOk
  infer_instance

/-- Everything before the pod-cgroup phase of `RemovePod` goes through:
the runtime and pod are valid, every member container passes the gating
checks, every dependent of a member is itself a member, and the OS
backend succeeds on every stop, exec-stop, cleanup, storage-teardown and
delete it is asked for. -/
def removalPipelineOk (w : World) (p : Pod) (force : Bool) : Prop :=
  w.valid = true ∧ p.valid = true ∧
  (∀ c ∈ w.store.podContainers p, removableCtr force c) ∧
  (∀ c ∈ w.store.podContainers p, ∀ d ∈ w.store.containerInUse c,
    ((w.store.podContainers p).map (fun x => x.id)).contains d = true) ∧
  (∀ c ∈ w.store.podContainers p,
    (c.state.status = .running → w.backend.stopOk c.id = true) ∧
    (c.state.execSessions ≠ [] → w.backend.execStopOk c.id = true)) ∧
  (∀ c ∈ w.store.podContainers p,
    w.backend.cleanupOk c.id = true ∧ w.backend.teardownOk c.id = true ∧
    w.backend.deleteOk c.id = true)

instance (w : World) (p : Pod) (force : Bool) : Decidable (removalPipelineOk w p force) := by
  unfold removalPipelineOk
  infer_instance

/-! ### Concrete instances used by witnesses and counterexamples -/

/-- A backend on which every operation succeeds. -/
def okBackend : Backend :=
  ⟨fun _ => true, fun _ => true, fun _ => true, fun _ => true, fun _ => true,
   fun _ => .ok, fun _ => true⟩

/-- A pod object named `mypod`, not owning a pod cgroup. -/
def podP : Pod :=
  { config := ⟨"p1", "mypod", "/libpod_parent", false⟩, state := ⟨""⟩, valid := true }

/-- A pod object owning the pod cgroup `/libpod_parent/p1`. -/
def podCg : Pod :=
  { config := ⟨"p1", "mypod", "/libpod_parent", true⟩,
    state := ⟨"/libpod_parent/p1"⟩, valid := true }

/-- A member container `a` in the given status. -/
def ctrA (st : ContainerStatus) : Container := { id := "a", state := ⟨st, []⟩, valid := true }

/-- A stopped member container `b`. -/
def ctrB : Container := { id := "b", state := ⟨.stopped, []⟩, valid := true }

/-- An external running container `c`, depending on `a` where used. -/
def ctrC : Container := { id := "c", state := ⟨.running, []⟩, valid := true }

/-- A valid cgroupfs-managed world with an empty store. -/
def w0 : World :=
  { valid := true, config := { cgroupManager := "cgroupfs" },
    store := ⟨[], [], [], []⟩, backend := okBackend }

/-- The same world under the systemd cgroup manager. -/
def wSd : World := { w0 with config := { cgroupManager := "systemd" } }

/-- A world holding pod `p1` with members `a` (in the given status) and
`b`, and the external container `c` depending on `a`. -/
def wDep (stA : ContainerStatus) : World :=
  { w0 with store :=
    ⟨[podP], [ctrA stA, ctrB, ctrC], [("p1", "a"), ("p1", "b")], [("a", "c")]⟩ }

/-- A world holding pod `p1` with a paused member `a` and a stopped
member `b`, and no dependencies. -/
def wPaused : World :=
  { w0 with store := ⟨[podP], [ctrA .paused, ctrB], [("p1", "a"), ("p1", "b")], []⟩ }

/-- A world holding only the empty pod `p1`. -/
def wEmpty : World := { w0 with store := ⟨[podP], [], [], []⟩ }

/-- A world holding the cgroup-owning pod `p1` with the given cgroup-load
and cgroup-delete backend outcomes. -/
def wCg (lr : CgLoadResult) (delOk : Bool) : World :=
  { w0 with
    store := ⟨[podCg], [], [], []⟩
    backend :=
      { okBackend with
        cgLoad := fun _ => lr
        cgDeleteOk := fun _ => delOk } }

/-- A world configured with the unsupported cgroup manager `foo`, holding
the cgroup-owning pod `p1` with the stopped member `b`. -/
def wBadMgr : World :=
  { valid := true, config := { cgroupManager := "foo" },
    store := ⟨[podCg], [ctrB], [("p1", "b")], []⟩, backend := okBackend }

/-- A second pod, named `web1`. -/
def podQ : Pod := { config := ⟨"q1", "web1", "", false⟩, state := ⟨""⟩, valid := true }

/-- A world holding the pods `p1` and `q1`. -/
def wPods : World := { w0 with store := ⟨[podP, podQ], [], [], []⟩ }

/-- A torn-down (invalid) runtime world. -/
def wStopped : World := { w0 with valid := false }

/-- A `PodCreateOption` setting the cgroup parent. -/
def withCgroupParent (s : String) : PodCreateOption := fun p =>
  .ok { p with config := { p.config with cgroupParent := s } }

/-- A `PodCreateOption` opting the pod into its own cgroup. -/
def withPodCgroup : PodCreateOption := fun p =>
  .ok { p with config := { p.config with usePodCgroup := true } }

/-- A `PodFilter` matching pods named `web1`. -/
def webFilter : PodFilter := fun p => p.config.name = "web1"

/-- The pod produced by applying `withPodCgroup` to a blank pod with ID
`p1`: it opts into its own cgroup and has no name or parent set. -/
def qUse : Pod :=
  { config := ⟨"p1", "", "", true⟩, state := ⟨""⟩, valid := false }

/-- The pod name `NewPod` persists: the generated name when the options
set none (lines 45-51). -/
def nameAfterFill (freshName : String) (q : Pod) : String :=
  if q.config.name = "" then freshName else q.config.name

/-- The cgroup parent after the systemd-mode defaulting step
(lines 66-67). -/
def parentAfterDefault (q : Pod) : String :=
  if q.config.cgroupParent = "" then SystemdDefaultCgroupParent else q.config.cgroupParent

/-! ### Helper lemmas about the validation loop and the dependency check -/

theorem validateCtrs_ok (s : StateStore) (pid : String) (force : Bool)
    (l : List Container) (h : ∀ c ∈ l, removableCtr force c) :
    validateCtrs s pid force l = .ok (l.map (fun c => (c.id, s.containerInUse c))) := by
  induction l with
  | nil => rfl
  | cons c rest ih =>
    obtain ⟨h1, h2, h3, h4⟩ := h c (List.mem_cons_self c rest)
    have hrec := ih (fun x hx => h x (List.mem_cons_of_mem _ hx))
    have hr : ¬ (c.state.status = .running ∧ force = false) := by
      rintro ⟨ha, hb⟩
      have := h3 ha
      rw [hb] at this
      exact Bool.false_ne_true this
    have he : ¬ (c.state.execSessions ≠ [] ∧ force = false) := by
      rintro ⟨ha, hb⟩
      have := h4 ha
      rw [hb] at this
      exact Bool.false_ne_true this
    simp only [validateCtrs, if_neg h1, if_neg h2, if_neg hr, if_neg he, hrec, List.map]

theorem validateCtrs_paused (s : StateStore) (pid : String) (force : Bool)
    (l : List Container) (h : ∃ c ∈ l, c.state.status = .paused) :
    ∃ a b, validateCtrs s pid force l = .error (.ctrStateInvalid a b) := by
  induction l with
  | nil => simp at h
  | cons c rest ih =>
    by_cases h1 : c.state.status = .paused
    · exact ⟨pid, c.id, by simp only [validateCtrs, if_pos h1]⟩
    · have hrest : ∃ x ∈ rest, x.state.status = .paused := by
        obtain ⟨x, hx, hpx⟩ := h
        rcases List.mem_cons.mp hx with rfl | hx'
        · exact absurd hpx h1
        · exact ⟨x, hx', hpx⟩
      by_cases h2 : c.state.status = .unknown
      · exact ⟨pid, c.id, by simp only [validateCtrs, if_neg h1, if_pos h2]⟩
      · by_cases h3 : c.state.status = .running ∧ force = false
        · exact ⟨pid, c.id, by simp only [validateCtrs, if_neg h1, if_neg h2, if_pos h3]⟩
        · by_cases h4 : c.state.execSessions ≠ [] ∧ force = false
          · exact ⟨pid, c.id,
              by simp only [validateCtrs, if_neg h1, if_neg h2, if_neg h3, if_pos h4]⟩
          · obtain ⟨a, b, hab⟩ := ih hrest
            exact ⟨a, b,
              by simp only [validateCtrs, if_neg h1, if_neg h2, if_neg h3, if_neg h4, hab]⟩

theorem depCheckAux_none (pid : String) (keys : List String)
    (m : List (String × List String))
    (h : ∀ kv ∈ m, ∀ d ∈ kv.2, keys.contains d = true) :
    depCheckAux pid keys m = none := by
  induction m with
  | nil => rfl
  | cons kv0 rest ih =>
    have hfind : kv0.2.find? (fun d => ¬ keys.contains d) = none := by
      rw [List.find?_eq_none]
      intro d hd
      have hc := h kv0 (List.mem_cons_self _ _) d hd
      simp at hc ⊢
      exact hc
    simp only [depCheckAux, hfind]
    exact ih (fun kv' h' d hd => h kv' (List.mem_cons_of_mem _ h') d hd)

theorem depCheckAux_some (pid : String) (keys : List String)
    (m : List (String × List String)) (kv : String × List String) (hkv : kv ∈ m)
    (d : String) (hd : d ∈ kv.2) (hcont : keys.contains d = false) :
    ∃ a b, depCheckAux pid keys m = some (.depViolation a b pid) := by
  induction m with
  | nil => simp at hkv
  | cons kv0 rest ih =>
    cases hfind : kv0.2.find? (fun x => ¬ keys.contains x) with
    | some d' =>
      exact ⟨kv0.1, d', by simp only [depCheckAux, hfind]⟩
    | none =>
      rcases List.mem_cons.mp hkv with rfl | hkv'
      · have hmem := List.find?_eq_none.mp hfind d hd
        simp at hmem hcont
        exact absurd hmem hcont
      · obtain ⟨a, b, hab⟩ := ih hkv'
        exact ⟨a, b, by simp only [depCheckAux, hfind, hab]⟩

/-! ### Helper lemmas about the stop and teardown loops -/

theorem forceStopCtrs_ids (b : Backend) (l : List Container) :
    ((forceStopCtrs b l).2).map (fun c => c.id) = l.map (fun c => c.id) := by
  induction l with
  | nil => rfl
  | cons c rest ih =>
    by_cases h1 : c.state.status = .running
    · by_cases h2 : b.stopOk c.id = true
      · simp only [forceStopCtrs, if_pos h1, if_pos h2]
        by_cases h3 : ({ c with state := { c.state with status := .stopped } } :
            Container).state.execSessions ≠ []
        · by_cases h4 : b.execStopOk c.id = true
          · simp only [if_pos h3, if_pos h4, List.map, ih]
          · simp only [if_pos h3, if_neg h4, List.map]
        · simp only [if_neg h3, List.map, ih]
      · simp only [forceStopCtrs, if_pos h1, if_neg h2, List.map]
    · simp only [forceStopCtrs, if_neg h1]
      by_cases h3 : c.state.execSessions ≠ []
      · by_cases h4 : b.execStopOk c.id = true
        · simp only [if_pos h3, if_pos h4, List.map, ih]
        · simp only [if_pos h3, if_neg h4, List.map]
      · simp only [if_neg h3, List.map, ih]

theorem forceStopCtrs_none (b : Backend) (l : List Container)
    (h : ∀ c ∈ l, (c.state.status = .running → b.stopOk c.id = true) ∧
      (c.state.execSessions ≠ [] → b.execStopOk c.id = true)) :
    (forceStopCtrs b l).1 = none := by
  induction l with
  | nil => rfl
  | cons c rest ih =>
    obtain ⟨hs, he⟩ := h c (List.mem_cons_self _ _)
    have hrec := ih (fun x hx => h x (List.mem_cons_of_mem _ hx))
    by_cases h1 : c.state.status = .running
    · simp only [forceStopCtrs, if_pos h1, if_pos (hs h1)]
      by_cases h3 : ({ c with state := { c.state with status := .stopped } } :
          Container).state.execSessions ≠ []
      · have h3' : c.state.execSessions ≠ [] := h3
        simp only [if_pos h3, if_pos (he h3'), hrec]
      · simp only [if_neg h3, hrec]
    · simp only [forceStopCtrs, if_neg h1]
      by_cases h3 : c.state.execSessions ≠ []
      · simp only [if_pos h3, if_pos (he h3), hrec]
      · simp only [if_neg h3, hrec]

theorem teardownCtrs_none (b : Backend) (l : List Container)
    (h : ∀ i ∈ l.map (fun c => c.id),
      b.cleanupOk i = true ∧ b.teardownOk i = true ∧ b.deleteOk i = true) :
    teardownCtrs b l = none := by
  induction l with
  | nil => rfl
  | cons c rest ih =>
    obtain ⟨h1, h2, h3⟩ := h c.id (by simp)
    have hnd : ¬ (¬ c.state.status = .configured ∧ ¬ b.deleteOk c.id = true) := by
      rintro ⟨_, hx⟩
      exact hx h3
    simp only [teardownCtrs, if_neg (by simp [h1] : ¬ ¬ b.cleanupOk c.id = true),
      if_neg (by simp [h2] : ¬ ¬ b.teardownOk c.id = true), if_neg hnd]
    exact ih (fun i hi => h i (by simp at hi ⊢; exact Or.inr hi))

/-! ### Helper lemmas about the State Store and the cgroup phase -/

theorem removePodContainers_pods (s : StateStore) (p : Pod) :
    (s.removePodContainers p).pods = s.pods := rfl

theorem podContainers_removePodContainers (s : StateStore) (p : Pod) :
    (s.removePodContainers p).podContainers p = [] := by
  rw [StateStore.podContainers, List.filter_eq_nil_iff]
  intro c _
  simp only [StateStore.removePodContainers, List.any_eq_true, List.mem_filter,
    decide_eq_true_eq, not_exists, not_and]
  rintro m ⟨_, hne⟩ h1
  exact absurd h1 hne

theorem store_removePod_ok (s : StateStore) (p : Pod) (h : s.hasPod p.config.id = true) :
    s.removePod p =
      .ok { s with pods := s.pods.filter (fun q => ¬ q.config.id = p.config.id) } := by
  rw [StateStore.removePod, if_pos h]

theorem hasPod_filter (s : StateStore) (pid : String) (ctrs' : List Container)
    (mem' : List (String × String)) (deps' : List (String × String)) :
    (StateStore.mk (s.pods.filter (fun q => ¬ q.config.id = pid)) ctrs' mem' deps').hasPod
      pid = false := by
  simp only [StateStore.hasPod, List.any_eq_false, List.mem_filter, decide_eq_true_eq]
  rintro q ⟨_, hne⟩
  exact hne

theorem pod_filter_none (s : StateStore) (pid : String) (ctrs' : List Container)
    (mem' : List (String × String)) (deps' : List (String × String)) :
    (StateStore.mk (s.pods.filter (fun q => ¬ q.config.id = pid)) ctrs' mem' deps').pod
      pid = none := by
  simp only [StateStore.pod, List.find?_eq_none, List.mem_filter, decide_eq_true_eq]
  rintro q ⟨_, hne⟩
  simpa using hne

theorem lookupPod_mem (s : StateStore) (x : String) (q : Pod)
    (h : s.lookupPod x = .ok q) : q ∈ s.pods := by
  unfold StateStore.lookupPod at h
  split at h
  · next p hfind =>
      cases h
      exact List.mem_of_find?_eq_some hfind
  · next =>
      split at h
      · next p hfind =>
          cases h
          exact List.mem_of_find?_eq_some hfind
      · next =>
          split at h
          · next p hfilter =>
              cases h
              exact List.mem_of_mem_filter (hfilter ▸ List.mem_singleton_self q)
          · next => cases h
          · next => cases h

theorem removePodCgroup_none (w : World) (p : Pod) (h : cgroupRemovalOk w p) :
    removePodCgroup w p = none := by
  unfold removePodCgroup
  by_cases hpath : p.state.cgroupPath = ""
  · rw [if_pos hpath]
  · rw [if_neg hpath]
    rcases h with h | h | ⟨hm, h⟩
    · exact absurd h hpath
    · rw [if_pos h]
    · rw [if_neg (by rw [hm]; decide), if_pos hm]
      rcases h with h | ⟨h, hd⟩
      · rw [h]
      · rw [h, if_pos hd]

/-- Under `removalPipelineOk`, `RemovePod` runs straight through to its
mutating tail, on a stopped container list with the same member IDs. -/
theorem removePod_pipeline (w : World) (p : Pod) (force : Bool)
    (h : removalPipelineOk w p force) :
    ∃ ctrs2 : List Container,
      ctrs2.map (fun c => c.id) = (w.store.podContainers p).map (fun c => c.id) ∧
      removePod w p true force = removePodTail w p ctrs2 := by
  obtain ⟨hv, hp, hrem, hdep, hstop, htd⟩ := h
  have hvne : ¬ (w.valid = false) := by rw [hv]; simp
  have hpne : ¬ (p.valid = false) := by rw [hp]; simp
  have hnotempty : ¬ (true = false ∧ (w.store.podContainers p).length > 0) := by
    rintro ⟨h1, _⟩
    cases h1
  have hval := validateCtrs_ok w.store p.ID force (w.store.podContainers p) hrem
  have hkeys : List.map (fun kv => kv.1)
      ((w.store.podContainers p).map (fun c => (c.id, w.store.containerInUse c))) =
      (w.store.podContainers p).map (fun c => c.id) := by
    rw [List.map_map]
    rfl
  have hdc : depCheck p.ID
      ((w.store.podContainers p).map (fun c => (c.id, w.store.containerInUse c))) = none := by
    rw [depCheck, hkeys]
    apply depCheckAux_none
    intro kv hkv d hd
    simp only [List.mem_map] at hkv
    obtain ⟨c, hc, rfl⟩ := hkv
    exact hdep c hc d hd
  cases force with
  | false =>
    refine ⟨w.store.podContainers p, rfl, ?_⟩
    simp only [removePod, if_neg hvne, if_neg hpne, if_neg hnotempty, hval, hdc]
    have htdn : teardownCtrs w.backend (w.store.podContainers p) = none := by
      apply teardownCtrs_none
      intro i hi
      simp only [List.mem_map] at hi
      obtain ⟨c, hc, rfl⟩ := hi
      exact htd c hc
    simp [htdn]
  | true =>
    rcases hfs : forceStopCtrs w.backend (w.store.podContainers p) with ⟨r1, r2⟩
    have hr1 : r1 = none := by
      have := forceStopCtrs_none w.backend (w.store.podContainers p) hstop
      rw [hfs] at this
      exact this
    subst hr1
    have hids : r2.map (fun c => c.id) = (w.store.podContainers p).map (fun c => c.id) := by
      have := forceStopCtrs_ids w.backend (w.store.podContainers p)
      rw [hfs] at this
      exact this
    refine ⟨r2, hids, ?_⟩
    simp only [removePod, if_neg hvne, if_neg hpne, if_neg hnotempty, hval, hdc, hfs]
    have htdn : teardownCtrs w.backend r2 = none := by
      apply teardownCtrs_none
      intro i hi
      rw [hids] at hi
      simp only [List.mem_map] at hi
      obtain ⟨c, hc, rfl⟩ := hi
      exact htd c hc
    simp [htdn]

/-! ### The claims -/


/-- Claim C3: for every pod containing at least one member container in
state `Paused`, `RemovePod(pod, true, force)` fails with a
*ContainerStateInvalid* error for every value of `force` (including
`force = true`), and nothing changes: the store, the pod object and the
member container objects are all left exactly as they were. -/
theorem removePod_pausedMember_fails (w : World) (p : Pod) (force : Bool)
    (hv : w.valid = true) (hp : p.valid = true)
    (hpause : ∃ c ∈ w.store.podContainers p, c.state.status = .paused) :
    isCtrStateInvalid (removePod w p true force).err = true ∧
    (removePod w p true force).world = w ∧
    (removePod w p true force).pod = p ∧
    (removePod w p true force).ctrs = w.store.podContainers p := by
  have hvne : ¬ (w.valid = false) := by rw [hv]; simp
  have hpne : ¬ (p.valid = false) := by rw [hp]; simp
  have hnotempty : ¬ (true = false ∧ (w.store.podContainers p).length > 0) := by
    rintro ⟨h1, _⟩
    cases h1
  obtain ⟨a, b, herr⟩ := validateCtrs_paused w.store p.ID force _ hpause
  simp [removePod, if_neg hvne, if_neg hpne, if_neg hnotempty, herr, isCtrStateInvalid]

/-- Witness for C3 at a concrete pod with a paused member. -/
theorem removePod_pausedMember_fails_witness :
    (wPaused.valid = true ∧ podP.valid = true ∧
      (∃ c ∈ wPaused.store.podContainers podP, c.state.status = .paused)) ∧
    (isCtrStateInvalid (removePod wPaused podP true true).err = true ∧
      (removePod wPaused podP true true).world = wPaused ∧
      (removePod wPaused podP true true).pod = podP ∧
      (removePod wPaused podP true true).ctrs = wPaused.store.podContainers podP) :=
  ⟨⟨rfl, rfl, by decide⟩,
    removePod_pausedMember_fails wPaused podP true rfl rfl (by decide)⟩

/-- Claim C2 (amended): for every pod whose member containers all pass
the gating checks under `force = true` (none `Paused` or `Unknown`), if
some member container has a dependent container that is not itself a
member of the pod, then `RemovePod(pod, true, true)` fails with a
*DependencyViolation* error and removes nothing: the store is untouched,
the pod object is unchanged (hence still valid and queryable), and the
member container objects are unchanged. -/
theorem removePod_externalDependency_fails (w : World) (p : Pod)
    (hv : w.valid = true) (hp : p.valid = true)
    (hrem : ∀ c ∈ w.store.podContainers p, removableCtr true c)
    (hviol : ∃ c ∈ w.store.podContainers p, ∃ d ∈ w.store.containerInUse c,
      ((w.store.podContainers p).map (fun x => x.id)).contains d = false) :
    isDepViolation (removePod w p true true).err = true ∧
    (removePod w p true true).world = w ∧
    (removePod w p true true).pod = p ∧
    (removePod w p true true).ctrs = w.store.podContainers p := by
  have hvne : ¬ (w.valid = false) := by rw [hv]; simp
  have hpne : ¬ (p.valid = false) := by rw [hp]; simp
  have hnotempty : ¬ (true = false ∧ (w.store.podContainers p).length > 0) := by
    rintro ⟨h1, _⟩
    cases h1
  have hval := validateCtrs_ok w.store p.ID true _ hrem
  obtain ⟨c, hc, d, hd, hcont⟩ := hviol
  have hkeys : List.map (fun kv => kv.1)
      ((w.store.podContainers p).map (fun c => (c.id, w.store.containerInUse c))) =
      (w.store.podContainers p).map (fun c => c.id) := by
    rw [List.map_map]
    rfl
  have hdcs : ∃ a b, depCheck p.ID
      ((w.store.podContainers p).map (fun x => (x.id, w.store.containerInUse x))) =
      some (.depViolation a b p.ID) := by
    rw [depCheck, hkeys]
    exact depCheckAux_some p.ID _ _ (c.id, w.store.containerInUse c)
      (List.mem_map.mpr ⟨c, hc, rfl⟩) d hd hcont
  obtain ⟨a, b, hdc⟩ := hdcs
  simp [removePod, if_neg hvne, if_neg hpne, if_neg hnotempty, hval, hdc, isDepViolation]

/-- Witness for C2 at a concrete pod with members `a`, `b` and an external dependent `c` of `a`. -/
theorem removePod_externalDependency_fails_witness :
    ((wDep .stopped).valid = true ∧ podP.valid = true ∧
      (∀ c ∈ (wDep .stopped).store.podContainers podP, removableCtr true c) ∧
      (∃ c ∈ (wDep .stopped).store.podContainers podP,
        ∃ d ∈ (wDep .stopped).store.containerInUse c,
          (((wDep .stopped).store.podContainers podP).map (fun x => x.id)).contains d =
            false)) ∧
    (isDepViolation (removePod (wDep .stopped) podP true true).err = true ∧
      (removePod (wDep .stopped) podP true true).world = wDep .stopped ∧
      (removePod (wDep .stopped) podP true true).pod = podP ∧
      (removePod (wDep .stopped) podP true true).ctrs =
        (wDep .stopped).store.podContainers podP) :=
  ⟨⟨rfl, rfl, by decide, by decide⟩,
    removePod_externalDependency_fails (wDep .stopped) podP rfl rfl (by decide) (by decide)⟩

/-- Counterexample for C2 as stated: with a *paused* member `a` that an
external container `c` depends on, `RemovePod(pod, true, true)` fails,
but with a *ContainerStateInvalid* error, not a *DependencyViolation*. -/
theorem removePod_pausedDep_not_depViolation :
    isDepViolation (removePod (wDep .paused) podP true true).err = false ∧
    (removePod (wDep .paused) podP true true).err.isSome = true ∧
    isCtrStateInvalid (removePod (wDep .paused) podP true true).err = true := by decide

/-- Claim C9: when the Runtime's `valid` flag is false, every public pod
operation (`NewPod`, `RemovePod`, `GetPod`, `HasPod`, `LookupPod`,
`Pods`) fails immediately with a *RuntimeStopped* error and leaves the
whole world (in particular the State Store) untouched, performing no
store query or mutation. -/
theorem stoppedRuntime_allOpsFail (w : World) (p : Pod)
    (id idOrName freshID freshName : String) (opts : List PodCreateOption)
    (filters : List PodFilter) (removeCtrs force : Bool)
    (h : w.valid = false) :
    newPod w freshID freshName opts = ⟨none, some .runtimeStopped, w⟩ ∧
    removePod w p removeCtrs force = ⟨some .runtimeStopped, w, p, []⟩ ∧
    getPod w id = .error .runtimeStopped ∧
    hasPod w id = .error .runtimeStopped ∧
    lookupPod w idOrName = .error .runtimeStopped ∧
    pods w filters = .error .runtimeStopped := by
  refine ⟨?_, ?_, ?_, ?_, ?_, ?_⟩ <;>
    simp [newPod, removePod, getPod, hasPod, lookupPod, pods, h]

/-- Witness for C9 at a concrete torn-down runtime. -/
theorem stoppedRuntime_allOpsFail_witness :
    wStopped.valid = false ∧
    (newPod wStopped "p1" "n1" [] = ⟨none, some .runtimeStopped, wStopped⟩ ∧
      removePod wStopped podP true true = ⟨some .runtimeStopped, wStopped, podP, []⟩ ∧
      getPod wStopped "p1" = .error .runtimeStopped ∧
      hasPod wStopped "p1" = .error .runtimeStopped ∧
      lookupPod wStopped "mypod" = .error .runtimeStopped ∧
      pods wStopped [] = .error .runtimeStopped) :=
  ⟨rfl, stoppedRuntime_allOpsFail wStopped podP "p1" "mypod" "p1" "n1" [] [] true true rfl⟩

theorem foldl_and_filters (filters : List PodFilter) (q : Pod) (b : Bool) :
    filters.foldl (fun i f => i && f q) b = (b && filters.all (fun f => f q)) := by
  induction filters generalizing b with
  | nil => cases b <;> rfl
  | cons f fs ihf =>
    rw [List.foldl_cons, List.all_cons, ihf (b && f q), Bool.and_assoc]

theorem pods_foldl_filter (filters : List PodFilter) (l : List Pod) (acc : List Pod) :
    l.foldl (fun acc p =>
      let inc := filters.foldl (fun i f => i && f p) true
      if inc then acc ++ [p] else acc) acc =
    acc ++ l.filter (fun p => filters.all (fun f => f p)) := by
  induction l generalizing acc with
  | nil => simp
  | cons q rest ih =>
    simp only [List.foldl, List.filter_cons, foldl_and_filters filters q true, Bool.true_and]
    cases hq : filters.all (fun f => f q) with
    | true => simp [ih]
    | false => simp [ih]

/-- Claim C8: for every store contents and every list of filter
predicates, `Pods(filters...)` returns exactly those pods for which every
supplied filter returns true (logical AND across filters), and `Pods()`
with no filters returns every pod. -/
theorem pods_filters_conjunction (w : World) (filters : List PodFilter)
    (hv : w.valid = true) :
    pods w filters =
      .ok ((w.store.allPods).filter (fun p => filters.all (fun f => f p))) ∧
    pods w [] = .ok w.store.allPods := by
  have hvne : ¬ (w.valid = false) := by rw [hv]; simp
  constructor
  · simp only [pods, if_neg hvne]
    rw [pods_foldl_filter]
    simp
  · simp only [pods, if_neg hvne]
    rw [pods_foldl_filter]
    simp

/-- Witness for C8 at a concrete two-pod store with one name filter. -/
theorem pods_filters_conjunction_witness :
    wPods.valid = true ∧
    (pods wPods [webFilter] =
      .ok ((wPods.store.allPods).filter (fun p => [webFilter].all (fun f => f p))) ∧
      pods wPods [] = .ok wPods.store.allPods) :=
  ⟨rfl, pods_filters_conjunction wPods [webFilter] rfl⟩



/-- Claim C1 (code bug evidence): on a valid runtime with all mutators
succeeding, valid cgroup configuration and a successful store insert,
`NewPod` persists the pod in the State Store but then returns
`(nil, ErrNotImplemented)` instead of the created pod — the final
`return nil, ErrNotImplemented` of `NewPod` (line 86) contradicts its
contract of returning the created pod. -/
theorem newPod_persists_then_errNotImplemented :
    (newPod w0 "p1" "n1" []).err = some .notImplemented ∧
    (newPod w0 "p1" "n1" []).pod = none ∧
    (newPod w0 "p1" "n1" []).world.store.hasPod "p1" = true := by decide

/-- Claim C6 (code bug evidence): `NewPod` with `CgroupParent`
`custom.slice` fails with *InvalidArgument* under the cgroupfs manager
(nothing persisted), and under systemd the parent passes validation and
the pod is persisted — but `NewPod` still returns
`(nil, ErrNotImplemented)` instead of succeeding, because of the same
incomplete control flow as C1; an empty parent is replaced by the mode's
default parent in either mode. -/
theorem newPod_cgroupParentValidation_behavior :
    (newPod w0 "p1" "n1" [withCgroupParent "custom.slice"]).err =
      some (.invalidArg "systemd slice received as cgroup parent when using cgroupfs") ∧
    (newPod w0 "p1" "n1" [withCgroupParent "custom.slice"]).world.store.hasPod "p1" =
      false ∧
    (newPod wSd "p1" "n1" [withCgroupParent "custom.slice"]).err =
      some .notImplemented ∧
    (newPod wSd "p1" "n1" [withCgroupParent "custom.slice"]).pod = none ∧
    (newPod wSd "p1" "n1" [withCgroupParent "custom.slice"]).world.store.hasPod "p1" =
      true ∧
    ((newPod w0 "p1" "n1" []).world.store.pod "p1").map (fun q => q.config.cgroupParent) =
      some CgroupfsDefaultCgroupParent ∧
    ((newPod wSd "p1" "n1" []).world.store.pod "p1").map (fun q => q.config.cgroupParent) =
      some SystemdDefaultCgroupParent := by decide

/-- Counterexample for C5 as stated: under the cgroupfs manager,
`NewPod` with `UsePodCgroup` persists the pod with an **empty**
`CgroupPath`, not `<parent>/<podID>` — the path is precomputed only in
the systemd branch of the manager switch (lines 75-77). -/
theorem newPod_cgroupfs_noCgroupPath :
    ((newPod w0 "p1" "n1" [withPodCgroup]).world.store.pod "p1").map
      (fun q => q.state.cgroupPath) = some "" ∧
    ¬ ("" = filepathJoin CgroupfsDefaultCgroupParent "p1") := by decide

/-- Claim C4: for every valid pod with zero member containers on a valid
runtime (with the pod registered in the store and the cgroup-removal
phase able to succeed), `RemovePod(pod, false, false)` succeeds, the pod
is removed from the State Store and marked invalid, and subsequent
`GetPod`/`HasPod`/`LookupPod` queries no longer find it. -/
theorem removePod_emptyPod_succeeds (w : World) (p : Pod)
    (hv : w.valid = true) (hp : p.valid = true)
    (hctrs : w.store.podContainers p = [])
    (hin : w.store.hasPod p.config.id = true)
    (hcg : cgroupRemovalOk w p) :
    (removePod w p false false).err = none ∧
    (removePod w p false false).pod.valid = false ∧
    (removePod w p false false).world.store.hasPod p.config.id = false ∧
    getPod (removePod w p false false).world p.config.id =
      .error (.backend ("no pod with id " ++ p.config.id)) ∧
    hasPod (removePod w p false false).world p.config.id = .ok false ∧
    (∀ q, lookupPod (removePod w p false false).world p.config.id = .ok q →
      ¬ q.config.id = p.config.id) := by
  have hvne : ¬ (w.valid = false) := by rw [hv]; simp
  have hpne : ¬ (p.valid = false) := by rw [hp]; simp
  have hrun : removePod w p false false = removePodTail w p [] := by
    simp [removePod, if_neg hvne, if_neg hpne, hctrs, validateCtrs, depCheck, depCheckAux,
      teardownCtrs]
  have hcgn : removePodCgroup { w with store := w.store.removePodContainers p } p = none :=
    removePodCgroup_none _ p hcg
  have hin1 : (w.store.removePodContainers p).hasPod p.config.id = true := hin
  have hrem := store_removePod_ok (w.store.removePodContainers p) p hin1
  have hout : removePod w p false false =
      ⟨none,
        { w with store :=
          { w.store.removePodContainers p with
            pods := (w.store.removePodContainers p).pods.filter
              (fun q => ¬ q.config.id = p.config.id) } },
        { p with valid := false }, []⟩ := by
    rw [hrun]
    simp only [removePodTail, hcgn, hrem, List.map]
  rw [hout]
  refine ⟨rfl, rfl, ?_, ?_, ?_, ?_⟩
  · exact hasPod_filter (w.store.removePodContainers p) p.config.id _ _ _
  · have hpn := pod_filter_none (w.store.removePodContainers p) p.config.id
      (w.store.removePodContainers p).ctrs (w.store.removePodContainers p).membership
      (w.store.removePodContainers p).deps
    simp only [getPod, if_neg hvne]
    rw [hpn]
  · simp only [hasPod, if_neg hvne]
    rw [hasPod_filter (w.store.removePodContainers p) p.config.id _ _ _]
  · intro q hq
    simp only [lookupPod, if_neg hvne] at hq
    have hmem := lookupPod_mem _ _ _ hq
    simp only [List.mem_filter, decide_eq_true_eq] at hmem
    exact hmem.2



/-- Witness for C4 at a concrete empty pod. -/
theorem removePod_emptyPod_succeeds_witness :
    (wEmpty.valid = true ∧ podP.valid = true ∧
      wEmpty.store.podContainers podP = [] ∧
      wEmpty.store.hasPod podP.config.id = true ∧
      cgroupRemovalOk wEmpty podP) ∧
    ((removePod wEmpty podP false false).err = none ∧
      (removePod wEmpty podP false false).pod.valid = false ∧
      (removePod wEmpty podP false false).world.store.hasPod podP.config.id = false ∧
      getPod (removePod wEmpty podP false false).world podP.config.id =
        .error (.backend ("no pod with id " ++ podP.config.id)) ∧
      hasPod (removePod wEmpty podP false false).world podP.config.id = .ok false ∧
      (∀ q, lookupPod (removePod wEmpty podP false false).world podP.config.id = .ok q →
        ¬ q.config.id = podP.config.id)) :=
  ⟨⟨rfl, rfl, by decide, by decide, by decide⟩,
    removePod_emptyPod_succeeds wEmpty podP rfl rfl (by decide) (by decide) (by decide)⟩

/-- Claim C7: in `RemovePod`'s pod-cgroup removal phase under the
cgroupfs manager, a cgroup load that reports `ErrCgroupDeleted` is
treated as success and the removal continues to completion (the pod ends
up removed from the store); any other load error, or a delete error,
aborts the operation with that error, leaving the pod in the store. -/
theorem removePod_cgroupDeleted_idempotent (w : World) (p : Pod) (force : Bool)
    (h : removalPipelineOk w p force)
    (hpath : ¬ p.state.cgroupPath = "")
    (hmgr : w.config.cgroupManager = CgroupfsCgroupsManager)
    (hin : w.store.hasPod p.config.id = true) :
    (w.backend.cgLoad p.state.cgroupPath = .deleted →
      (removePod w p true force).err = none ∧
      (removePod w p true force).world.store.hasPod p.config.id = false) ∧
    (∀ m, w.backend.cgLoad p.state.cgroupPath = .fail m →
      (removePod w p true force).err = some (.backend m) ∧
      (removePod w p true force).world.store.hasPod p.config.id = true) ∧
    (w.backend.cgLoad p.state.cgroupPath = .ok →
      w.backend.cgDeleteOk p.state.cgroupPath = false →
      (removePod w p true force).err =
        some (.backend ("error deleting cgroup " ++ p.state.cgroupPath)) ∧
      (removePod w p true force).world.store.hasPod p.config.id = true) ∧
    (w.backend.cgLoad p.state.cgroupPath = .ok →
      w.backend.cgDeleteOk p.state.cgroupPath = true →
      (removePod w p true force).err = none) := by
  obtain ⟨ctrs2, -, heq⟩ := removePod_pipeline w p force h
  have hsys : ¬ w.config.cgroupManager = SystemdCgroupsManager := by
    rw [hmgr]
    decide
  have hin1 : (w.store.removePodContainers p).hasPod p.config.id = true := hin
  have hrem := store_removePod_ok (w.store.removePodContainers p) p hin1
  have hsame : removePodCgroup { w with store := w.store.removePodContainers p } p =
      removePodCgroup w p := rfl
  refine ⟨?_, ?_, ?_, ?_⟩
  · intro hl
    have hcg : removePodCgroup { w with store := w.store.removePodContainers p } p =
        none := by
      rw [hsame]
      unfold removePodCgroup
      rw [if_neg hpath, if_neg hsys, if_pos hmgr, hl]
    rw [heq]
    simp only [removePodTail, hcg, hrem]
    exact ⟨by trivial, hasPod_filter _ _ _ _ _⟩
  · intro m hl
    have hcg : removePodCgroup { w with store := w.store.removePodContainers p } p =
        some (.backend m) := by
      rw [hsame]
      unfold removePodCgroup
      rw [if_neg hpath, if_neg hsys, if_pos hmgr, hl]
    rw [heq]
    simp only [removePodTail, hcg]
    exact ⟨by trivial, hin1⟩
  · intro hl hd
    have hdne : ¬ w.backend.cgDeleteOk p.state.cgroupPath = true := by
      rw [hd]
      decide
    have hcg : removePodCgroup { w with store := w.store.removePodContainers p } p =
        some (.backend ("error deleting cgroup " ++ p.state.cgroupPath)) := by
      rw [hsame]
      unfold removePodCgroup
      rw [if_neg hpath, if_neg hsys, if_pos hmgr, hl, if_neg hdne]
    rw [heq]
    simp only [removePodTail, hcg]
    exact ⟨by trivial, hin1⟩
  · intro hl hd
    have hcg : removePodCgroup { w with store := w.store.removePodContainers p } p =
        none := by
      rw [hsame]
      unfold removePodCgroup
      rw [if_neg hpath, if_neg hsys, if_pos hmgr, hl, if_pos hd]
    rw [heq]
    simp only [removePodTail, hcg, hrem]

/-- Witness for C7 at a concrete pod whose cgroup is already deleted. -/
theorem removePod_cgroupDeleted_idempotent_witness :
    (removalPipelineOk (wCg .deleted true) podCg true ∧
      ¬ podCg.state.cgroupPath = "" ∧
      (wCg .deleted true).config.cgroupManager = CgroupfsCgroupsManager ∧
      (wCg .deleted true).store.hasPod podCg.config.id = true) ∧
    (((wCg .deleted true).backend.cgLoad podCg.state.cgroupPath = .deleted →
      (removePod (wCg .deleted true) podCg true true).err = none ∧
      (removePod (wCg .deleted true) podCg true true).world.store.hasPod
        podCg.config.id = false) ∧
    (∀ m, (wCg .deleted true).backend.cgLoad podCg.state.cgroupPath = .fail m →
      (removePod (wCg .deleted true) podCg true true).err = some (.backend m) ∧
      (removePod (wCg .deleted true) podCg true true).world.store.hasPod
        podCg.config.id = true) ∧
    ((wCg .deleted true).backend.cgLoad podCg.state.cgroupPath = .ok →
      (wCg .deleted true).backend.cgDeleteOk podCg.state.cgroupPath = false →
      (removePod (wCg .deleted true) podCg true true).err =
        some (.backend ("error deleting cgroup " ++ podCg.state.cgroupPath)) ∧
      (removePod (wCg .deleted true) podCg true true).world.store.hasPod
        podCg.config.id = true) ∧
    ((wCg .deleted true).backend.cgLoad podCg.state.cgroupPath = .ok →
      (wCg .deleted true).backend.cgDeleteOk podCg.state.cgroupPath = true →
      (removePod (wCg .deleted true) podCg true true).err = none)) :=
  ⟨⟨by decide, by decide, rfl, by decide⟩,
    removePod_cgroupDeleted_idempotent (wCg .deleted true) podCg true (by decide)
      (by decide) rfl (by decide)⟩

/-- Claim C10: if a pod has a non-empty `CgroupPath` and the configured
cgroup manager is neither cgroupfs nor systemd, `RemovePod` returns an
*InvalidArgument* error only after all member containers have already
been removed from the State Store and marked invalid, while the pod
itself is still valid and still present in the State Store. -/
theorem removePod_unknownManager_lateFailure (w : World) (p : Pod) (force : Bool)
    (h : removalPipelineOk w p force)
    (hpath : ¬ p.state.cgroupPath = "")
    (hm1 : ¬ w.config.cgroupManager = CgroupfsCgroupsManager)
    (hm2 : ¬ w.config.cgroupManager = SystemdCgroupsManager)
    (hin : w.store.hasPod p.config.id = true) :
    (removePod w p true force).err =
      some (.invalidArg ("unknown cgroups manager " ++ w.config.cgroupManager ++
        " specified")) ∧
    (removePod w p true force).world.store.podContainers p = [] ∧
    (removePod w p true force).world.store.pods = w.store.pods ∧
    (removePod w p true force).world.store.hasPod p.config.id = true ∧
    (removePod w p true force).pod = p ∧
    (∀ c ∈ (removePod w p true force).ctrs, c.valid = false) ∧
    (removePod w p true force).ctrs.map (fun c => c.id) =
      (w.store.podContainers p).map (fun c => c.id) := by
  obtain ⟨ctrs2, hids, heq⟩ := removePod_pipeline w p force h
  have hcg : removePodCgroup { w with store := w.store.removePodContainers p } p =
      some (.invalidArg ("unknown cgroups manager " ++ w.config.cgroupManager ++
        " specified")) := by
    have hsame : removePodCgroup { w with store := w.store.removePodContainers p } p =
        removePodCgroup w p := rfl
    rw [hsame]
    unfold removePodCgroup
    rw [if_neg hpath, if_neg hm2, if_neg hm1]
  rw [heq]
  simp only [removePodTail, hcg]
  refine ⟨by trivial, ?_, by trivial, ?_, by trivial, ?_, ?_⟩
  · exact podContainers_removePodContainers w.store p
  · exact hin
  · intro c hc
    simp only [List.mem_map] at hc
    obtain ⟨c', _, rfl⟩ := hc
    rfl
  · rw [List.map_map]
    exact hids

/-- Witness for C10 at a concrete runtime configured with the unsupported manager foo. -/
theorem removePod_unknownManager_lateFailure_witness :
    (removalPipelineOk wBadMgr podCg true ∧
      ¬ podCg.state.cgroupPath = "" ∧
      ¬ wBadMgr.config.cgroupManager = CgroupfsCgroupsManager ∧
      ¬ wBadMgr.config.cgroupManager = SystemdCgroupsManager ∧
      wBadMgr.store.hasPod podCg.config.id = true) ∧
    ((removePod wBadMgr podCg true true).err =
      some (.invalidArg ("unknown cgroups manager " ++ wBadMgr.config.cgroupManager ++
        " specified")) ∧
    (removePod wBadMgr podCg true true).world.store.podContainers podCg = [] ∧
    (removePod wBadMgr podCg true true).world.store.pods = wBadMgr.store.pods ∧
    (removePod wBadMgr podCg true true).world.store.hasPod podCg.config.id = true ∧
    (removePod wBadMgr podCg true true).pod = podCg ∧
    (∀ c ∈ (removePod wBadMgr podCg true true).ctrs, c.valid = false) ∧
    (removePod wBadMgr podCg true true).ctrs.map (fun c => c.id) =
      (wBadMgr.store.podContainers podCg).map (fun c => c.id)) :=
  ⟨⟨by decide, by decide, by decide, by decide, by decide⟩,
    removePod_unknownManager_lateFailure wBadMgr podCg true (by decide) (by decide)
      (by decide) (by decide) (by decide)⟩



theorem finishNewPod_pod (w : World) (pod : Pod)
    (hfree : w.store.pods.any
      (fun r => r.config.id = pod.config.id ∨ r.config.name = pod.config.name) = false) :
    (finishNewPod w pod).world.store.pod pod.config.id = some pod ∧
    (finishNewPod w pod).err = some .notImplemented := by
  have hne : ¬ (w.store.pods.any
      (fun r => r.config.id = pod.config.id ∨ r.config.name = pod.config.name) = true) := by
    rw [hfree]
    decide
  have haddok : w.store.addPod pod =
      .ok { w.store with pods := w.store.pods ++ [pod] } := by
    rw [StateStore.addPod, if_neg hne]
  simp only [finishNewPod, haddok]
  refine ⟨?_, by trivial⟩
  simp only [StateStore.pod]
  rw [List.find?_append]
  have h1 : w.store.pods.find? (fun r => r.config.id = pod.config.id) = none := by
    rw [List.find?_eq_none]
    intro r hr
    have h2 := List.any_eq_false.mp hfree r hr
    simp only [decide_eq_true_eq] at h2 ⊢
    intro hid
    exact h2 (Or.inl hid)
  rw [h1]
  simp [List.find?]



theorem finishNewPod_pathLookup (w : World) (pod : Pod) (qid : String)
    (hid : pod.config.id = qid)
    (hfree : w.store.pods.any (fun r => r.config.id = pod.config.id ∨
      r.config.name = pod.config.name) = false) :
    ((finishNewPod w pod).world.store.pod qid).map (fun r => r.state.cgroupPath) =
      some pod.state.cgroupPath := by
  obtain ⟨h1, -⟩ := finishNewPod_pod w pod hfree
  rw [← hid, h1]
  rfl

/-- Claim C5 (amended): only under the systemd cgroup manager does
`NewPod` precompute the pod's `CgroupPath` as the join of its (possibly
defaulted) `CgroupParent` and its pod ID before persisting the pod; the
persisted pod carries exactly that path. (Under cgroupfs the persisted
`CgroupPath` is left empty — see the counterexample.) -/
theorem newPod_systemd_cgroupPath (w : World) (freshID freshName : String)
    (opts : List PodCreateOption) (q : Pod)
    (hv : w.valid = true)
    (hmgr : w.config.cgroupManager = SystemdCgroupsManager)
    (hopts : applyOptions (blankPod freshID) opts = .ok q)
    (huse : q.config.usePodCgroup = true)
    (hparent : q.config.cgroupParent = "" ∨
      (¬ q.config.cgroupParent.length < 6 ∧
        hasSuffix (pathBase q.config.cgroupParent) ".slice" = true))
    (hfree : ∀ r ∈ w.store.pods,
      ¬ r.config.id = q.config.id ∧ ¬ r.config.name = nameAfterFill freshName q) :
    ((newPod w freshID freshName opts).world.store.pod q.config.id).map
      (fun r => r.state.cgroupPath) =
      some (filepathJoin (parentAfterDefault q) q.config.id) := by
  have hvne : ¬ (w.valid = false) := by rw [hv]; simp
  have hncg : ¬ (w.config.cgroupManager = CgroupfsCgroupsManager) := by
    rw [hmgr]
    decide
  have hfreeb : ∀ (pod : Pod), pod.config.id = q.config.id →
      pod.config.name = nameAfterFill freshName q →
      w.store.pods.any (fun r => r.config.id = pod.config.id ∨
        r.config.name = pod.config.name) = false := by
    intro pod h1 h2
    rw [h1, h2, List.any_eq_false]
    intro r hr
    simp only [decide_eq_true_eq]
    rintro (ha | hb)
    · exact (hfree r hr).1 ha
    · exact (hfree r hr).2 hb
  rcases hparent with hpe | ⟨hlen, hsuf⟩
  · simp only [newPod, if_neg hvne, hopts, if_neg hncg, if_pos hmgr, apply_ite,
      ite_self, hpe, huse, eq_self_iff_true, if_true, Pod.ID]
    rw [finishNewPod_pathLookup w _ q.config.id (by simp [apply_ite, ite_self])
      (hfreeb _ (by simp [apply_ite, ite_self])
        (by by_cases hn : q.config.name = "" <;> simp [hn, nameAfterFill]))]
    simp [apply_ite, ite_self, parentAfterDefault, hpe]
  · have hpne' : ¬ (q.config.cgroupParent = "") := by
      intro h
      rw [h] at hlen
      exact hlen (by decide)
    have hc2 : ¬ (q.config.cgroupParent.length < 6 ∨
        ¬ hasSuffix (pathBase q.config.cgroupParent) ".slice" = true) := by
      rintro (h | h)
      · exact hlen h
      · exact h hsuf
    simp only [newPod, if_neg hvne, hopts, if_neg hncg, if_pos hmgr, apply_ite,
      ite_self, if_neg hpne', if_neg hc2, huse, eq_self_iff_true, if_true, Pod.ID]
    rw [finishNewPod_pathLookup w _ q.config.id (by simp [apply_ite, ite_self])
      (hfreeb _ (by simp [apply_ite, ite_self])
        (by by_cases hn : q.config.name = "" <;> simp [hn, nameAfterFill]))]
    simp [apply_ite, ite_self, parentAfterDefault, hpne']

/-- Witness for C5 (amended) at a concrete systemd-managed runtime. -/
theorem newPod_systemd_cgroupPath_witness :
    (wSd.valid = true ∧ wSd.config.cgroupManager = SystemdCgroupsManager ∧
      applyOptions (blankPod "p1") [withPodCgroup] = .ok qUse ∧
      qUse.config.usePodCgroup = true ∧ qUse.config.cgroupParent = "" ∧
      (∀ r ∈ wSd.store.pods, ¬ r.config.id = qUse.config.id ∧
        ¬ r.config.name = nameAfterFill "n1" qUse)) ∧
    ((newPod wSd "p1" "n1" [withPodCgroup]).world.store.pod qUse.config.id).map
      (fun r => r.state.cgroupPath) =
      some (filepathJoin (parentAfterDefault qUse) qUse.config.id) :=
  ⟨⟨rfl, rfl, rfl, rfl, rfl, by decide⟩,
    newPod_systemd_cgroupPath wSd "p1" "n1" [withPodCgroup] qUse rfl rfl rfl rfl
      (Or.inl rfl) (by decide)⟩

end Libpod
